import Mathlib

/-!
Shallow embedding of the Denodo AI SDK MCP adapter (askDenodo.py).

The embedding models decoded JSON values, the Python dynamic-typing
semantics the adapter relies on (truthiness, the membership operator,
attribute and format errors), the transport wrapper
make_denodo_request, the five request builders and the five response
normalizers.  A raised Python exception is modelled as Except.error.
-/

/-- JSON values as decoded by the HTTP client library.  Numbers are
modelled as exact rationals; every numeric value the spec scenarios
exercise has the same decimal rounding as its binary floating point
reading, so the rational model renders identically. -/
inductive JValue where
  | null
  | bool (b : Bool)
  | num (q : ℚ)
  | str (s : String)
  | arr (elems : List JValue)
  | obj (fields : List (String × JValue))

/-- Python exception kinds the adapter code can raise. -/
inductive PyExc where
  | typeError
  | valueError
  | attributeError
  | keyError
  deriving DecidableEq, Repr

/-- First-match key lookup in an object field list (Python dict access;
real dicts have unique keys, so first-match agrees with dict semantics). -/
def jlookup (k : String) : List (String × JValue) → Option JValue
  | [] => none
  | (k2, v) :: rest => if k2 = k then some v else jlookup k rest

/-- Python truthiness of a decoded JSON value: None, False, zero and
empty containers are falsy, everything else is truthy. -/
def pyTruthy : JValue → Bool
  | .null => false
  | .bool b => b
  | .num q => decide (q ≠ 0)
  | .str s => decide (s ≠ "")
  | .arr xs => !xs.isEmpty
  | .obj fs => !fs.isEmpty

/-- Python substring containment, the `in` operator on strings. -/
def strContains (needle hay : String) : Bool :=
  (List.range (hay.length + 1)).any (fun i => needle.data.isPrefixOf (hay.data.drop i))

/-- Python `needle in v` for a string needle: key membership for dicts,
element equality for lists, substring search for strings; TypeError on
numbers, booleans and None. -/
def pyContains (needle : String) : JValue → Except PyExc Bool
  | .obj fs => .ok (jlookup needle fs).isSome
  | .arr xs => .ok (xs.any fun x => match x with | .str s => s == needle | _ => false)
  | .str s => .ok (strContains needle s)
  | _ => .error .typeError

/-- Python `v.get(k, default)`: only dicts have a get method; every other
value raises AttributeError. -/
def pyGet (v : JValue) (k : String) (dflt : JValue) : Except PyExc JValue :=
  match v with
  | .obj fs => .ok ((jlookup k fs).getD dflt)
  | _ => .error .attributeError

/-- Python `v[k]` for a string key: dict lookup (KeyError when the key is
missing); TypeError on any non-dict value. -/
def pySubscript (v : JValue) (k : String) : Except PyExc JValue :=
  match v with
  | .obj fs =>
    match jlookup k fs with
    | some x => .ok x
    | none => .error .keyError
  | _ => .error .typeError

/-- Python iteration: lists yield their elements, strings yield
one-character strings, dicts yield their keys; other values raise
TypeError. -/
def pyIter : JValue → Except PyExc (List JValue)
  | .arr xs => .ok xs
  | .str s => .ok (s.data.map fun c => .str (String.singleton c))
  | .obj fs => .ok (fs.map fun p => JValue.str p.1)
  | _ => .error .typeError

/-- Python `len(v)`: defined for lists, strings and dicts; TypeError
otherwise. -/
def pyLen : JValue → Except PyExc ℕ
  | .arr xs => .ok xs.length
  | .str s => .ok s.length
  | .obj fs => .ok fs.length
  | _ => .error .typeError

/-- Single-quote character, used by the Python repr of strings. -/
def sglQuote : String := String.singleton (Char.ofNat 39)

mutual
/-- Python repr() of a decoded JSON value.  String escaping is not
modelled (no claim interpolates a string containing quotes) and
non-integer numbers are rendered from the exact rational (no claim
interpolates one). -/
def pyRepr : JValue → String
  | .null => "None"
  | .bool true => "True"
  | .bool false => "False"
  | .num q => if q.den = 1 then toString q.num else toString q
  | .str s => sglQuote ++ s ++ sglQuote
  | .arr xs => "[" ++ String.intercalate ", " (pyReprList xs) ++ "]"
  | .obj fs => "\x7b" ++ String.intercalate ", " (pyReprFields fs) ++ "\x7d"

/-- Helper of pyRepr for list elements. -/
def pyReprList : List JValue → List String
  | [] => []
  | x :: xs => pyRepr x :: pyReprList xs

/-- Helper of pyRepr for dict fields. -/
def pyReprFields : List (String × JValue) → List String
  | [] => []
  | kv :: fs => (sglQuote ++ kv.1 ++ sglQuote ++ ": " ++ pyRepr kv.2) :: pyReprFields fs
end

/-- Python str() as used by f-string interpolation: a string interpolates
as itself, every other value via its repr (for scalars str and repr
agree up to string quoting). -/
def pyStr : JValue → String
  | .str s => s
  | v => pyRepr v

/-- Collect the parts of a Python str.join: every yielded element must be
a string, otherwise join raises TypeError. -/
def pyJoinParts : List JValue → Except PyExc (List String)
  | [] => .ok []
  | .str s :: rest => do
    let tail ← pyJoinParts rest
    .ok (s :: tail)
  | _ :: _ => .error .typeError

/-- Python sep.join(v) over an arbitrary iterable value. -/
def pyJoin (sep : String) (v : JValue) : Except PyExc String := do
  let items ← pyIter v
  let parts ← pyJoinParts items
  .ok (String.intercalate sep parts)

/-- Round q times 10^4 to the nearest integer, half away from zero,
computed directly on the numerator and denominator (floor of
q * 10^4 + 1/2).  This models the rounding of Python fixed-point
formatting; Python rounds the underlying binary float half-to-even,
which agrees on every value the spec scenarios use (none sits on a
tie). -/
def ratRound4 (q : ℚ) : ℤ :=
  Int.fdiv (2 * q.num * 10000 + (q.den : ℤ)) (2 * (q.den : ℤ))

/-- Left-pad a natural number to four digits with zeros. -/
def pad4 (n : ℕ) : String :=
  let s := toString n
  String.mk (List.replicate (4 - s.length) '0') ++ s

/-- Python format(q, ".4f") for a nonnegative rational. -/
def fmt4fNN (q : ℚ) : String :=
  let n : ℕ := (ratRound4 q).toNat
  toString (n / 10000) ++ "." ++ pad4 (n % 10000)

/-- Python format(q, ".4f") for any rational: sign then magnitude. -/
def fmt4f (q : ℚ) : String :=
  if q < 0 then "-" ++ fmt4fNN (-q) else fmt4fNN q

/-- Python format(v, ".4f"): numbers format in fixed point with four
decimals, booleans count as the integers 0 and 1, a string raises
ValueError (unknown format code) and other values raise TypeError
(unsupported format string). -/
def pyFormat4f : JValue → Except PyExc String
  | .num q => .ok (fmt4f q)
  | .bool b => .ok (if b then fmt4f 1 else fmt4f 0)
  | .str _ => .error .valueError
  | _ => .error .typeError

/-- Behaviour of the network for one call: either the backend replies
with a 2xx status and a body that parses as JSON, or something inside
the guarded region raises (connection failure, timeout, non-2xx status
via raise_for_status, or a JSON decode failure). -/
inductive NetBehavior where
  | replies (v : JValue)
  | raises (msg : String)

/-- Outcome of make_denodo_request together with whether the HTTP client
was invoked at all (whether a connection was attempted). -/
structure TransportOutcome where
  result : Option JValue
  attempted : Bool

/-- Python str.upper on the underlying character list (the HTTP method
names involved are ASCII, where this agrees with Python). -/
def strUpper (s : String) : String := String.mk (s.data.map Char.toUpper)

/-- Embedding of make_denodo_request (lines 17-33): dispatch on the
upper-cased method; GET and POST run the guarded client call, turning
any raised exception into a dict with an error field; any other method
returns None without touching the network. -/
def make_denodo_request (method : String) (net : NetBehavior) : TransportOutcome :=
  if strUpper method = "GET" ∨ strUpper method = "POST" then
    match net with
    | .replies v => ⟨some v, true⟩
    | .raises msg => ⟨some (.obj [("error", .str msg)]), true⟩
  else ⟨none, false⟩

/-- An outgoing HTTP request as assembled by one of the five operations. -/
structure BackendRequest where
  endpoint : String
  method : String
  queryParams : List (String × JValue)
  jsonBody : List (String × JValue)
  auth : Option (String × String)

/-- Embedding of the credential expression shared verbatim by all five
operations (lines 50, 99, 141, 170, 210): the pair when both username
and password are truthy (non-empty), otherwise None. -/
def make_auth (username password : String) : Option (String × String) :=
  if username ≠ "" ∧ password ≠ "" then some (username, password) else none

/-- Request assembled by answer_question (lines 50-66). -/
def answer_question_request (question username password : String) (plot : Bool)
    (mode use_views custom_instructions : String) : BackendRequest :=
  { endpoint := "answerQuestion"
    method := "POST"
    queryParams := []
    jsonBody :=
      [("question", .str question), ("plot", .bool plot), ("mode", .str mode),
       ("markdown_response", .bool true), ("verbose", .bool true)] ++
      (if use_views ≠ "" then [("use_views", .str use_views)] else []) ++
      (if custom_instructions ≠ "" then
        [("custom_instructions", .str custom_instructions)] else [])
    auth := make_auth username password }

/-- Request assembled by answer_data_question (lines 99-111). -/
def answer_data_question_request (question username password : String) (plot : Bool)
    (use_views : String) : BackendRequest :=
  { endpoint := "answerDataQuestion"
    method := "POST"
    queryParams := []
    jsonBody :=
      [("question", .str question), ("plot", .bool plot),
       ("markdown_response", .bool true), ("verbose", .bool true)] ++
      (if use_views ≠ "" then [("use_views", .str use_views)] else [])
    auth := make_auth username password }

/-- Request assembled by answer_metadata_question (lines 141-149). -/
def answer_metadata_question_request (question username password : String) : BackendRequest :=
  { endpoint := "answerMetadataQuestion"
    method := "POST"
    queryParams := []
    jsonBody :=
      [("question", .str question),
       ("markdown_response", .bool true), ("verbose", .bool true)]
    auth := make_auth username password }

/-- Request assembled by similarity_search (lines 170-178). -/
def similarity_search_request (query : String) (n_results : ℤ)
    (username password : String) : BackendRequest :=
  { endpoint := "similaritySearch"
    method := "GET"
    queryParams :=
      [("query", .str query), ("n_results", .num (n_results : ℚ)), ("scores", .bool true)]
    jsonBody := []
    auth := make_auth username password }

/-- Request assembled by get_metadata (lines 210-221). -/
def get_metadata_request (database_names : String) (insert overwrite : Bool)
    (username password : String) : BackendRequest :=
  { endpoint := "getMetadata"
    method := "GET"
    queryParams :=
      [("vdp_database_names", .str database_names),
       ("insert", .str (if insert then "true" else "false")),
       ("overwrite", .str (if overwrite then "true" else "false")),
       ("examples_per_table", .num 3),
       ("descriptions", .str "true"),
       ("associations", .str "true")]
    jsonBody := []
    auth := make_auth username password }

/-- Embedding of the guard duplicated verbatim at the head of each of the
five normalizers (lines 68-69, 113-114, 151-152, 180-181, 223-224):
if not result or "error" in result, return the error f-string when
result is truthy and the operation-specific failure message otherwise;
on a truthy result without an error field, continue with the
operation-specific success formatting. -/
def renderWith (failMsg : String) (body : JValue → Except PyExc String) :
    Option JValue → Except PyExc String
  | none => .ok failMsg
  | some v =>
    if pyTruthy v = false then .ok failMsg
    else do
      let hasError ← pyContains "error" v
      if hasError then do
        let e ← pyGet v "error" (.str "Unknown error occurred")
        .ok ("Error: " ++ pyStr e)
      else body v

/-- Success formatting shared verbatim by answer_question and
answer_data_question (lines 72-84 and 117-129). -/
def answerBody (v : JValue) : Except PyExc String := do
  let answer ← pyGet v "answer" (.str "No answer provided")
  let sql_query ← pyGet v "sql_query" (.str "")
  let tables_used ← pyGet v "tables_used" (.arr [])
  let tablesText ← if pyTruthy tables_used then pyJoin ", " tables_used else pure "None"
  .ok ("\nAnswer: " ++ pyStr answer ++ "\n\nSQL Query: " ++
       (if pyTruthy sql_query then pyStr sql_query else "No SQL query generated") ++
       "\n\nTables Used: " ++ tablesText ++ "\n")

/-- Success formatting of answer_metadata_question (lines 154-157). -/
def metadataAnswerBody (v : JValue) : Except PyExc String := do
  let answer ← pyGet v "answer" (.str "No answer provided")
  .ok ("Answer: " ++ pyStr answer)

/-- Formatting of one similarity result entry (lines 188-193) at 1-based
index i. -/
def similarityItem (i : ℕ) (item : JValue) : Except PyExc String := do
  let table_name ← pyGet item "table_name" (.str "Unknown")
  let score ← pyGet item "score" (.num 0)
  let description ← pyGet item "description" (.str "No description available")
  let scoreText ← pyFormat4f score
  .ok (toString i ++ ". Table: " ++ pyStr table_name ++ "\n   Score: " ++ scoreText ++
       "\n   Description: " ++ pyStr description)

/-- The enumerate loop of similarity_search (lines 187-193). -/
def similarityItems : ℕ → List JValue → Except PyExc (List String)
  | _, [] => .ok []
  | i, item :: rest => do
    let s ← similarityItem i item
    let tail ← similarityItems (i + 1) rest
    .ok (s :: tail)

/-- Success formatting of similarity_search (lines 183-195): a second
presence check on the results field, then the numbered list. -/
def similarityBody (v : JValue) : Except PyExc String := do
  let hasResults ← pyContains "results" v
  if hasResults = false then
    .ok "No results found or unable to perform similarity search."
  else do
    let rs ← pySubscript v "results"
    let items ← pyIter rs
    let parts ← similarityItems 1 items
    .ok ("Search Results:\n\n" ++ String.intercalate "\n\n" parts)

/-- The db_schema_json loop of get_metadata (lines 231-237): collects the
databaseName values in entry order and sums the databaseTables lengths. -/
def metadataScan : List JValue → Except PyExc (ℕ × List JValue)
  | [] => .ok (0, [])
  | db :: rest => do
    let name ← pyGet db "databaseName" (.str "Unknown")
    let tables ← pyGet db "databaseTables" (.arr [])
    let n ← pyLen tables
    let (c, names) ← metadataScan rest
    .ok (c + n, name :: names)

/-- Success formatting of get_metadata (lines 226-241). -/
def getMetadataBody (database_names : String) (v : JValue) : Except PyExc String := do
  let hasSchema ← pyContains "db_schema_json" v
  let counted ←
    if hasSchema then do
      let schema ← pySubscript v "db_schema_json"
      let entries ← pyIter schema
      metadataScan entries
    else .ok ((0 : ℕ), ([] : List JValue))
  let databases_str ←
    if counted.2.isEmpty then pure database_names
    else do
      let parts ← pyJoinParts counted.2
      pure (String.intercalate ", " parts)
  .ok ("Successfully retrieved metadata for " ++ toString counted.1 ++
       " tables from database(s): " ++ databases_str ++ ".")

/-- Response normalization of answer_question (lines 68-84). -/
def answer_question_render : Option JValue → Except PyExc String :=
  renderWith "Failed to get a response" answerBody

/-- Response normalization of answer_data_question (lines 113-129). -/
def answer_data_question_render : Option JValue → Except PyExc String :=
  renderWith "Failed to get a response" answerBody

/-- Response normalization of answer_metadata_question (lines 151-157). -/
def answer_metadata_question_render : Option JValue → Except PyExc String :=
  renderWith "Failed to get a response" metadataAnswerBody

/-- Response normalization of similarity_search (lines 180-195). -/
def similarity_search_render : Option JValue → Except PyExc String :=
  renderWith "Failed to get a response" similarityBody

/-- Response normalization of get_metadata (lines 223-241); note the
distinct failure message "Failed to get metadata" on line 224. -/
def get_metadata_render (database_names : String) : Option JValue → Except PyExc String :=
  renderWith "Failed to get metadata" (getMetadataBody database_names)

/-- Test whether a JSON value is a string. -/
def strB : JValue → Bool
  | .str _ => true
  | _ => false

/-- A value accepted by Python str.join: a string (its characters), a
dict (its keys, which are strings) or a list all of whose elements are
strings. -/
def joinableB : JValue → Bool
  | .str _ => true
  | .obj _ => true
  | .arr xs => xs.all strB
  | _ => false

/-- Well-typedness of the tables_used field (default empty list) of the
two answer operations: the join succeeds on it. -/
def answerFieldsOK (fs : List (String × JValue)) : Bool :=
  joinableB ((jlookup "tables_used" fs).getD (.arr []))

/-- An optional field value that is absent or a string. -/
def optStrOK : Option JValue → Bool
  | none => true
  | some (.str _) => true
  | some _ => false

/-- An optional field value that is absent or a number. -/
def optNumOK : Option JValue → Bool
  | none => true
  | some (.num _) => true
  | some _ => false

/-- An optional field value that is absent or a list. -/
def optArrOK : Option JValue → Bool
  | none => true
  | some (.arr _) => true
  | some _ => false

/-- The string carried by an optional field, with a default. -/
def optStrD (o : Option JValue) (d : String) : String :=
  match o with
  | some (.str s) => s
  | _ => d

/-- The number carried by an optional field, with a default. -/
def optNumD (o : Option JValue) (d : ℚ) : ℚ :=
  match o with
  | some (.num q) => q
  | _ => d

/-- The length of the list carried by an optional field, defaulting to
the empty list. -/
def optArrLen (o : Option JValue) : ℕ :=
  match o with
  | some (.arr ts) => ts.length
  | _ => 0

/-- Documented field types of one similarity result entry: table_name
absent or a string, score absent or a number, description absent or a
string. -/
def searchItemOK (fs : List (String × JValue)) : Bool :=
  optStrOK (jlookup "table_name" fs) && optNumOK (jlookup "score" fs) &&
    optStrOK (jlookup "description" fs)

/-- searchItemOK on a raw JSON value: a well-typed entry object. -/
def searchItemOKV : JValue → Bool
  | .obj fs => searchItemOK fs
  | _ => false

/-- Well-typedness of a similarity success payload: the results field,
when present, is a list of well-typed entry objects. -/
def similarityFieldsOK (fs : List (String × JValue)) : Bool :=
  match jlookup "results" fs with
  | none => true
  | some (.arr items) => items.all searchItemOKV
  | some _ => false

/-- Documented field types of one db_schema_json entry: databaseName
absent or a string, databaseTables absent or a list. -/
def metaEntryOK (fs : List (String × JValue)) : Bool :=
  optStrOK (jlookup "databaseName" fs) && optArrOK (jlookup "databaseTables" fs)

/-- metaEntryOK on a raw JSON value: a well-typed entry object. -/
def metaEntryOKV : JValue → Bool
  | .obj fs => metaEntryOK fs
  | _ => false

/-- Well-typedness of a get_metadata success payload: the db_schema_json
field, when present, is a list of well-typed entry objects. -/
def metadataFieldsOK (fs : List (String × JValue)) : Bool :=
  match jlookup "db_schema_json" fs with
  | none => true
  | some (.arr entries) => entries.all metaEntryOKV
  | some _ => false

/-- A payload value that the guard handles safely: an object that either
reports an error or has well-typed operation-specific fields. -/
def payloadObjOK (fieldsOK : List (String × JValue) → Bool) : JValue → Bool
  | .obj fs => (jlookup "error" fs).isSome || fieldsOK fs
  | _ => false

/-- Outcomes on which a normalizer is claimed total: no outcome at all, a
falsy payload, an object payload reporting an error, or an object
payload whose operation-specific fields are well typed. -/
def payloadOK (fieldsOK : List (String × JValue) → Bool) : Option JValue → Bool
  | none => true
  | some v => !pyTruthy v || payloadObjOK fieldsOK v

/-- Spec-side table count for claim C6 (follows the claim wording): the
sum over the entries of the length of each databaseTables list,
defaulting to the empty list. -/
def specTableCount (entries : List (List (String × JValue))) : ℕ :=
  (entries.map fun fs => optArrLen (jlookup "databaseTables" fs)).sum

/-- Spec-side database-name list for claim C6 (follows the claim
wording): each entry's databaseName in entry order, defaulting to
"Unknown". -/
def specDbNames (entries : List (List (String × JValue))) : List String :=
  entries.map fun fs => optStrD (jlookup "databaseName" fs) "Unknown"

/-- Spec-side value of one similarity entry's table_name for claim C7
(follows the claim wording, default "Unknown"). -/
def specItemName (fs : List (String × JValue)) : String :=
  optStrD (jlookup "table_name" fs) "Unknown"

/-- Spec-side value of one similarity entry's score for claim C7
(follows the claim wording, default 0). -/
def specItemScore (fs : List (String × JValue)) : ℚ :=
  optNumD (jlookup "score" fs) 0

/-- Spec-side value of one similarity entry's description for claim C7
(follows the claim wording, default "No description available"). -/
def specItemDesc (fs : List (String × JValue)) : String :=
  optStrD (jlookup "description" fs) "No description available"

/-- Spec-side 1-based numbered list of claim C7 (follows the claim
wording): each entry shows table_name, the score formatted to 4
decimal places, and description. -/
def specSearchLines : ℕ → List (List (String × JValue)) → List String
  | _, [] => []
  | i, fs :: rest =>
    (toString i ++ ". Table: " ++ specItemName fs ++ "\n   Score: " ++
      fmt4f (specItemScore fs) ++ "\n   Description: " ++ specItemDesc fs) ::
      specSearchLines (i + 1) rest

/-- An optional field value that is absent or a list of strings. -/
def optStrListOK : Option JValue → Bool
  | none => true
  | some (.arr xs) => xs.all strB
  | some _ => false

/-- The list carried by an optional field, defaulting to empty. -/
def optArrD (o : Option JValue) : List JValue :=
  match o with
  | some (.arr xs) => xs
  | _ => []

/-- The strings among a list of JSON values, in order. -/
def strsOf : List JValue → List String
  | [] => []
  | .str s :: rest => s :: strsOf rest
  | _ :: rest => strsOf rest

/-- Spec-side three-line answer template of claim C2 (follows the claim
wording): answer defaults to "No answer provided", an absent or empty
sql_query renders as "No SQL query generated", an absent or empty
tables_used list renders as "None" and otherwise comma-joins. -/
def answerTemplate (fs : List (String × JValue)) : String :=
  "\nAnswer: " ++ optStrD (jlookup "answer" fs) "No answer provided" ++
  "\n\nSQL Query: " ++
  (if optStrD (jlookup "sql_query" fs) "" = "" then "No SQL query generated"
   else optStrD (jlookup "sql_query" fs) "") ++
  "\n\nTables Used: " ++
  (if (optArrD (jlookup "tables_used" fs)).isEmpty then "None"
   else String.intercalate ", " (strsOf (optArrD (jlookup "tables_used" fs)))) ++ "\n"

/-- The score 0.8765 of spec Scenario 3, as the reduced fraction
1753/2000 (kept in constructor form so that kernel evaluation of the
formatter never normalizes a fraction). -/
def score8765 : ℚ := Rat.mk' 1753 2000 (by norm_num) (by norm_num)

/-- Sanity connection: score8765 is the rational 0.8765. -/
theorem score8765_eq : score8765 = 8765 / 10000 := by
  rw [score8765, Rat.mk'_eq_divInt, Rat.divInt_eq_div]
  norm_num

/-- A successful key lookup forces the field list to be non-empty, hence
the object to be truthy. -/
theorem jlookup_ne_nil {k : String} {fs : List (String × JValue)} {x : JValue}
    (h : jlookup k fs = some x) : fs.isEmpty = false := by
  cases fs with
  | nil => simp [jlookup] at h
  | cons a l => rfl

/-- On a payload object whose error field holds the string msg, the guard
shared by every normalizer renders exactly "Error: " followed by msg. -/
theorem renderWith_error_field (failMsg : String) (body : JValue → Except PyExc String)
    (fs : List (String × JValue)) (msg : String)
    (h : jlookup "error" fs = some (.str msg)) :
    renderWith failMsg body (some (.obj fs)) = .ok ("Error: " ++ msg) := by
  simp [renderWith, pyTruthy, jlookup_ne_nil h, pyContains, h, pyGet, pyStr, bind, Except.bind,
    pure, Except.pure]

/-- Claim C1, counterexample: on the no-outcome (None) case, get_metadata
returns the literal "Failed to get metadata", not the literal
"Failed to get a response" that the claim asserts for all five
operations. -/
theorem c1_counterexample_get_metadata_none :
    get_metadata_render "bank" none = .ok "Failed to get metadata" ∧
      "Failed to get metadata" ≠ "Failed to get a response" :=
  ⟨rfl, by decide⟩

/-- Claim C1, amended: on the no-outcome (None) case the four question
and search operations return the literal "Failed to get a response",
while get_metadata returns the literal "Failed to get metadata". -/
theorem c1_none_outcome_messages :
    answer_question_render none = .ok "Failed to get a response" ∧
      answer_data_question_render none = .ok "Failed to get a response" ∧
      answer_metadata_question_render none = .ok "Failed to get a response" ∧
      similarity_search_render none = .ok "Failed to get a response" ∧
      (∀ dbn : String, get_metadata_render dbn none = .ok "Failed to get metadata") :=
  ⟨rfl, rfl, rfl, rfl, fun _ => rfl⟩

/-- Claim C2, counterexample: answer_question on the empty-object success
payload returns "Failed to get a response" (the empty dict is falsy in
the guard), not the three-line template with defaults that the claim
asserts. -/
theorem c2_counterexample_empty_object :
    answer_question_render (some (.obj [])) = .ok "Failed to get a response" ∧
      "Failed to get a response" ≠
        "\nAnswer: No answer provided\n\nSQL Query: No SQL query generated\n\nTables Used: None\n" :=
  ⟨rfl, by decide⟩

/-- Claim C3, counterexample: with method PUT the transport returns None
rather than an error-message-carrying outcome, and the operations then
render the no-response message, which does not carry the "Error: "
prefix. -/
theorem c3_counterexample_put_method :
    (make_denodo_request "PUT" (.replies (.obj [("answer", .str "42")]))).result = none ∧
      answer_question_render
          (make_denodo_request "PUT" (.replies (.obj [("answer", .str "42")]))).result =
        .ok "Failed to get a response" ∧
      strContains "Error: " "Failed to get a response" = false :=
  ⟨rfl, rfl, by decide⟩

/-- Claim C3, amended: a method other than GET and POST yields the empty
outcome (None) immediately and without consulting the network (the
transport result does not depend on the network behaviour and no
connection is attempted); the operations then render the no-outcome
message, not an "Error: " text. -/
theorem c3_bad_method_empty_outcome (method : String) (net : NetBehavior)
    (hg : strUpper method ≠ "GET") (hp : strUpper method ≠ "POST") :
    make_denodo_request method net = ⟨none, false⟩ ∧
      (∀ net2, make_denodo_request method net = make_denodo_request method net2) ∧
      answer_question_render (make_denodo_request method net).result =
        .ok "Failed to get a response" ∧
      (∀ dbn, get_metadata_render dbn (make_denodo_request method net).result =
        .ok "Failed to get metadata") := by
  have h : ∀ n : NetBehavior, make_denodo_request method n = ⟨none, false⟩ := by
    intro n
    unfold make_denodo_request
    rw [if_neg]
    simp [hg, hp]
  refine ⟨h net, fun net2 => by rw [h net, h net2], ?_, fun dbn => ?_⟩ <;> rw [h net] <;> rfl

/-- Claim C3, witness: the amended theorem applied at method PUT with a
concrete network behaviour. -/
theorem c3_bad_method_witness :
    make_denodo_request "PUT" (.raises "boom") = ⟨none, false⟩ :=
  (c3_bad_method_empty_outcome "PUT" (.raises "boom") (by decide) (by decide)).1

/-- Claim C5: every error-carrying outcome - a transport failure wrapped
as an error dict or a backend object whose top-level error field holds
the string msg - renders as exactly "Error: " ++ msg in all five
operations, and a raised transport exception with message m is wrapped
as exactly such an object. -/
theorem c5_error_outcomes_render_text (fs : List (String × JValue)) (msg : String)
    (h : jlookup "error" fs = some (.str msg)) :
    answer_question_render (some (.obj fs)) = .ok ("Error: " ++ msg) ∧
      answer_data_question_render (some (.obj fs)) = .ok ("Error: " ++ msg) ∧
      answer_metadata_question_render (some (.obj fs)) = .ok ("Error: " ++ msg) ∧
      similarity_search_render (some (.obj fs)) = .ok ("Error: " ++ msg) ∧
      (∀ dbn, get_metadata_render dbn (some (.obj fs)) = .ok ("Error: " ++ msg)) ∧
      (∀ m : String, (make_denodo_request "POST" (.raises m)).result =
        some (.obj [("error", .str m)])) :=
  ⟨renderWith_error_field _ _ _ _ h, renderWith_error_field _ _ _ _ h,
   renderWith_error_field _ _ _ _ h, renderWith_error_field _ _ _ _ h,
   fun _ => renderWith_error_field _ _ _ _ h, fun _ => rfl⟩

/-- Claim C5, witness: the backend-error payload of spec Scenario 6
renders as "Error: invalid credentials". -/
theorem c5_error_outcomes_witness :
    answer_question_render (some (.obj [("error", .str "invalid credentials")])) =
      .ok "Error: invalid credentials" := by
  have h := (c5_error_outcomes_render_text [("error", .str "invalid credentials")]
    "invalid credentials" rfl).1
  simpa using h

/-- Claim C10: a success payload whose results field is present but holds
the empty list renders the bare header "Search Results:" followed by a
blank line, not the no-results message. -/
theorem c10_empty_results_header (fs : List (String × JValue))
    (hres : jlookup "results" fs = some (.arr []))
    (herr : jlookup "error" fs = none) :
    similarity_search_render (some (.obj fs)) = .ok "Search Results:\n\n" := by
  simp [similarity_search_render, renderWith, pyTruthy, jlookup_ne_nil hres, pyContains, herr,
    similarityBody, hres, pySubscript, pyIter, similarityItems, bind, Except.bind, pure,
    Except.pure]
  rfl

/-- Claim C10, witness: the theorem applied at the one-field payload whose
results list is empty. -/
theorem c10_empty_results_header_witness :
    similarity_search_render (some (.obj [("results", .arr [])])) = .ok "Search Results:\n\n" :=
  c10_empty_results_header [("results", .arr [])] rfl rfl

/-- Claim C8: the POST body built by answer_question always carries
question, plot, mode, markdown_response=true and verbose=true; it
carries use_views exactly when that argument is non-empty (with its
value verbatim), likewise custom_instructions; empty optional strings
are never sent. -/
theorem c8_answer_question_body_fields (question username password : String) (plot : Bool)
    (mode use_views custom_instructions : String) :
    jlookup "question" (answer_question_request question username password plot mode use_views
        custom_instructions).jsonBody = some (.str question) ∧
    jlookup "plot" (answer_question_request question username password plot mode use_views
        custom_instructions).jsonBody = some (.bool plot) ∧
    jlookup "mode" (answer_question_request question username password plot mode use_views
        custom_instructions).jsonBody = some (.str mode) ∧
    jlookup "markdown_response" (answer_question_request question username password plot mode
        use_views custom_instructions).jsonBody = some (.bool true) ∧
    jlookup "verbose" (answer_question_request question username password plot mode use_views
        custom_instructions).jsonBody = some (.bool true) ∧
    jlookup "use_views" (answer_question_request question username password plot mode use_views
        custom_instructions).jsonBody =
      (if use_views = "" then none else some (.str use_views)) ∧
    jlookup "custom_instructions" (answer_question_request question username password plot mode
        use_views custom_instructions).jsonBody =
      (if custom_instructions = "" then none else some (.str custom_instructions)) := by
  rcases eq_or_ne use_views "" with hu | hu <;>
    rcases eq_or_ne custom_instructions "" with hc | hc <;>
      simp [answer_question_request, jlookup, hu, hc]

/-- Claim C9: each of the five request builders attaches basic-auth
credentials exactly when both username and password are non-empty, and
attaches none (no credentials at all) when either is empty. -/
theorem c9_auth_iff_both_nonempty (u p question query dbn : String) (plot insert overwrite : Bool)
    (mode use_views custom_instructions : String) (n_results : ℤ) :
    ((answer_question_request question u p plot mode use_views custom_instructions).auth =
        some (u, p) ↔ u ≠ "" ∧ p ≠ "") ∧
    ((answer_data_question_request question u p plot use_views).auth =
        some (u, p) ↔ u ≠ "" ∧ p ≠ "") ∧
    ((answer_metadata_question_request question u p).auth = some (u, p) ↔ u ≠ "" ∧ p ≠ "") ∧
    ((similarity_search_request query n_results u p).auth = some (u, p) ↔ u ≠ "" ∧ p ≠ "") ∧
    ((get_metadata_request dbn insert overwrite u p).auth = some (u, p) ↔ u ≠ "" ∧ p ≠ "") ∧
    ((u = "" ∨ p = "") →
      (answer_question_request question u p plot mode use_views custom_instructions).auth = none ∧
      (answer_data_question_request question u p plot use_views).auth = none ∧
      (answer_metadata_question_request question u p).auth = none ∧
      (similarity_search_request query n_results u p).auth = none ∧
      (get_metadata_request dbn insert overwrite u p).auth = none) := by
  have hiff : make_auth u p = some (u, p) ↔ u ≠ "" ∧ p ≠ "" := by
    unfold make_auth
    by_cases h1 : u = "" <;> by_cases h2 : p = "" <;> simp [h1, h2]
  have hnone : (u = "" ∨ p = "") → make_auth u p = none := by
    intro h
    unfold make_auth
    rw [if_neg]
    tauto
  exact ⟨hiff, hiff, hiff, hiff, hiff,
    fun h => ⟨hnone h, hnone h, hnone h, hnone h, hnone h⟩⟩

/-- Claim C9, witness: concrete credential pairs; both non-empty attaches
the pair, an empty username attaches nothing. -/
theorem c9_auth_witness :
    (answer_question_request "q" "admin" "pw" false "default" "" "").auth =
      some ("admin", "pw") ∧
    (similarity_search_request "q" 5 "" "pw").auth = none := by
  constructor
  · exact (c9_auth_iff_both_nonempty "admin" "pw" "q" "q" "bank" false true true "default" "" ""
      5).1.mpr ⟨by decide, by decide⟩
  · exact ((c9_auth_iff_both_nonempty "" "pw" "q" "q" "bank" false true true "default" "" ""
      5).2.2.2.2.2 (Or.inl rfl)).2.2.2.1

/-- A present string-or-absent field read with a string default yields a
string value. -/
theorem optStrOK_getD (o : Option JValue) (d : String) (h : optStrOK o = true) :
    o.getD (.str d) = .str (optStrD o d) := by
  rcases o with _ | v
  · rfl
  · cases v <;> simp_all [optStrOK, optStrD]

/-- A present number-or-absent field read with a numeric default yields a
numeric value. -/
theorem optNumOK_getD (o : Option JValue) (d : ℚ) (h : optNumOK o = true) :
    o.getD (.num d) = .num (optNumD o d) := by
  rcases o with _ | v
  · rfl
  · cases v <;> simp_all [optNumOK, optNumD]

/-- Python len of a list-or-absent field read with the empty-list default
succeeds and returns the list length. -/
theorem optArrOK_len (o : Option JValue) (h : optArrOK o = true) :
    pyLen (o.getD (.arr [])) = .ok (optArrLen o) := by
  rcases o with _ | v
  · rfl
  · cases v <;> simp_all [optArrOK, optArrLen, pyLen]

/-- One well-typed similarity entry formats to the spec-side line. -/
theorem similarityItem_spec (i : ℕ) (fs : List (String × JValue))
    (h : searchItemOK fs = true) :
    similarityItem i (.obj fs) =
      .ok (toString i ++ ". Table: " ++ specItemName fs ++ "\n   Score: " ++
        fmt4f (specItemScore fs) ++ "\n   Description: " ++ specItemDesc fs) := by
  unfold searchItemOK at h
  simp only [Bool.and_eq_true] at h
  obtain ⟨⟨hn, hs⟩, hd⟩ := h
  unfold similarityItem
  simp [pyGet, bind, Except.bind, pure, Except.pure, optStrOK_getD _ _ hn,
    optStrOK_getD _ _ hd, optNumOK_getD _ _ hs, pyFormat4f, pyStr, specItemName,
    specItemScore, specItemDesc]

/-- The enumerate loop over well-typed entries yields the spec-side
numbered lines, for any starting index. -/
theorem similarityItems_spec (items : List (List (String × JValue))) :
    ∀ i, items.all searchItemOK = true →
      similarityItems i (items.map JValue.obj) = .ok (specSearchLines i items) := by
  induction items with
  | nil => intro i _; rfl
  | cons fs rest ih =>
    intro i h
    simp only [List.all_cons, Bool.and_eq_true] at h
    obtain ⟨h1, h2⟩ := h
    simp only [List.map_cons]
    unfold similarityItems specSearchLines
    rw [similarityItem_spec i fs h1, ih (i + 1) h2]
    simp [bind, Except.bind, pure, Except.pure]

/-- Joining a list of string values succeeds and yields the strings. -/
theorem pyJoinParts_map_str (xs : List String) : pyJoinParts (xs.map JValue.str) = .ok xs := by
  induction xs with
  | nil => rfl
  | cons x rest ih => simp [pyJoinParts, ih, bind, Except.bind]

/-- The db_schema_json loop over well-typed entries yields the spec-side
table count and the spec-side name list. -/
theorem metadataScan_spec (entries : List (List (String × JValue)))
    (hok : entries.all metaEntryOK = true) :
    metadataScan (entries.map JValue.obj) =
      .ok (specTableCount entries, (specDbNames entries).map JValue.str) := by
  induction entries with
  | nil => rfl
  | cons fs rest ih =>
    simp only [List.all_cons, Bool.and_eq_true] at hok
    obtain ⟨h1, hrest⟩ := hok
    unfold metaEntryOK at h1
    simp only [Bool.and_eq_true] at h1
    obtain ⟨hname, htab⟩ := h1
    simp only [List.map_cons]
    unfold metadataScan
    rw [ih hrest]
    simp [pyGet, bind, Except.bind, pure, Except.pure, optStrOK_getD _ _ hname,
      optArrOK_len _ htab, specTableCount, specDbNames, Nat.add_comm]

/-- Claim C7, amended: on a non-empty success payload, similarity_search
renders "No results found or unable to perform similarity search." when
the results field is absent, and otherwise the 1-based numbered list
with the documented defaults (Scenario 3 yields its exact output); the
empty-object payload instead renders "Failed to get a response". -/
theorem c7_similarity_rendering (fs : List (String × JValue))
    (herr : jlookup "error" fs = none) :
    (jlookup "results" fs = none → fs.isEmpty = false →
      similarity_search_render (some (.obj fs)) =
        .ok "No results found or unable to perform similarity search.") ∧
    (∀ items : List (List (String × JValue)),
      jlookup "results" fs = some (.arr (items.map JValue.obj)) →
      items.all searchItemOK = true →
      similarity_search_render (some (.obj fs)) =
        .ok ("Search Results:\n\n" ++ String.intercalate "\n\n" (specSearchLines 1 items))) ∧
    similarity_search_render (some (.obj [("results", .arr [.obj [("table_name",
        .str "bank.customers"), ("score", .num score8765),
        ("description", .str "Customer master")]])])) =
      .ok "Search Results:\n\n1. Table: bank.customers\n   Score: 0.8765\n   Description: Customer master" ∧
    similarity_search_render (some (.obj [])) = .ok "Failed to get a response" := by
  refine ⟨fun hres hne => ?_, fun items hres hok => ?_, rfl, rfl⟩
  · simp [similarity_search_render, renderWith, pyTruthy, hne, pyContains, herr,
      similarityBody, hres, bind, Except.bind, pure, Except.pure]
  · simp [similarity_search_render, renderWith, pyTruthy, jlookup_ne_nil hres, pyContains,
      herr, similarityBody, hres, pySubscript, pyIter, similarityItems_spec items 1 hok,
      bind, Except.bind, pure, Except.pure]

/-- Claim C7, counterexample: the empty-object success payload has no
results field, yet the operation returns "Failed to get a response"
(the empty dict is falsy), not the no-results message the claim
asserts. -/
theorem c7_counterexample_empty_object :
    similarity_search_render (some (.obj [])) = .ok "Failed to get a response" ∧
      "Failed to get a response" ≠ "No results found or unable to perform similarity search." :=
  ⟨rfl, by decide⟩

/-- Claim C7, witness: a non-empty payload without a results field
renders the no-results message. -/
theorem c7_similarity_witness :
    similarity_search_render (some (.obj [("query_info", .null)])) =
      .ok "No results found or unable to perform similarity search." :=
  (c7_similarity_rendering [("query_info", .null)] rfl).1 rfl rfl

/-- Claim C6, counterexample: with db_schema_json present but empty, the
collected database list is empty and falsy, so the output falls back to
the requested database-name string "bank" instead of the comma-join of
the (zero) entry names that the claim asserts for every present
db_schema_json field. -/
theorem c6_counterexample_empty_schema :
    get_metadata_render "bank" (some (.obj [("db_schema_json", .arr [])])) =
      .ok "Successfully retrieved metadata for 0 tables from database(s): bank." ∧
      "Successfully retrieved metadata for 0 tables from database(s): bank." ≠
        "Successfully retrieved metadata for 0 tables from database(s): ." :=
  ⟨rfl, by decide⟩

/-- Claim C6, amended: on a success payload with a well-typed
db_schema_json list, the sentence reports the summed databaseTables
lengths and, when the entry list is non-empty, the comma-joined
databaseName values in entry order; when db_schema_json is absent in a
non-empty payload, or present with an empty entry list, the database
list falls back to the requested database-name string; the empty
object itself is falsy and renders the no-outcome message
"Failed to get metadata" (Scenario 4 yields its exact output). -/
theorem c6_get_metadata_rendering (dbn : String) (fs : List (String × JValue))
    (herr : jlookup "error" fs = none) :
    (∀ entries : List (List (String × JValue)),
      jlookup "db_schema_json" fs = some (.arr (entries.map JValue.obj)) →
      entries.all metaEntryOK = true →
      get_metadata_render dbn (some (.obj fs)) =
        .ok ("Successfully retrieved metadata for " ++ toString (specTableCount entries) ++
          " tables from database(s): " ++
          (if entries.isEmpty then dbn
           else String.intercalate ", " (specDbNames entries)) ++ ".")) ∧
    (jlookup "db_schema_json" fs = none → fs.isEmpty = false →
      get_metadata_render dbn (some (.obj fs)) =
        .ok ("Successfully retrieved metadata for 0 tables from database(s): " ++ dbn ++ ".")) ∧
    get_metadata_render "bank" (some (.obj [("db_schema_json",
        .arr [.obj [("databaseName", .str "bank"),
          ("databaseTables", .arr [.obj [], .obj [], .obj []])]])])) =
      .ok "Successfully retrieved metadata for 3 tables from database(s): bank." ∧
    (∀ dbn2 : String, get_metadata_render dbn2 (some (.obj [])) = .ok "Failed to get metadata") := by
  refine ⟨fun entries hres hok => ?_, fun hres hne => ?_, rfl, fun dbn2 => rfl⟩
  · have hmap : ((specDbNames entries).map JValue.str).isEmpty = entries.isEmpty := by
      cases entries <;> rfl
    rcases he : entries.isEmpty with _ | _
    · simp [get_metadata_render, renderWith, pyTruthy, jlookup_ne_nil hres, pyContains, herr,
        getMetadataBody, hres, pySubscript, pyIter, metadataScan_spec entries hok, hmap, he,
        pyJoinParts_map_str, bind, Except.bind, pure, Except.pure]
    · have he2 := List.isEmpty_iff.mp he
      subst he2
      simp [get_metadata_render, renderWith, pyTruthy, jlookup_ne_nil hres, pyContains, herr,
        getMetadataBody, hres, pySubscript, pyIter, metadataScan, bind, Except.bind, pure,
        Except.pure]
      rfl
  · simp [get_metadata_render, renderWith, pyTruthy, hne, pyContains, herr,
      getMetadataBody, hres, bind, Except.bind, pure, Except.pure]
    rfl

/-- Claim C6, witness: a one-entry schema with no databaseTables field
counts zero tables and lists the entry's databaseName. -/
theorem c6_get_metadata_witness :
    get_metadata_render "bank" (some (.obj [("db_schema_json",
        .arr [.obj [("databaseName", .str "bank")]])])) =
      .ok "Successfully retrieved metadata for 0 tables from database(s): bank." := by
  have h := (c6_get_metadata_rendering "bank" [("db_schema_json",
    .arr [.obj [("databaseName", .str "bank")]])] rfl).1 [[("databaseName", .str "bank")]]
    rfl (by decide)
  exact h
/-- Joining any list of string values succeeds. -/
theorem pyJoinParts_all_str (xs : List JValue) (h : xs.all strB = true) :
    ∃ ps, pyJoinParts xs = .ok ps := by
  induction xs with
  | nil => exact ⟨[], rfl⟩
  | cons x rest ih =>
    simp only [List.all_cons, Bool.and_eq_true] at h
    obtain ⟨h1, h2⟩ := h
    obtain ⟨ps, hps⟩ := ih h2
    cases x with
    | str s => exact ⟨s :: ps, by simp [pyJoinParts, hps, bind, Except.bind]⟩
    | null => simp [strB] at h1
    | bool b => simp [strB] at h1
    | num q => simp [strB] at h1
    | arr xs2 => simp [strB] at h1
    | obj fs2 => simp [strB] at h1

/-- Python str.join succeeds on every joinable value. -/
theorem pyJoin_ok (sep : String) (v : JValue) (h : joinableB v = true) :
    ∃ s, pyJoin sep v = .ok s := by
  cases v with
  | str s =>
    have hall : (s.data.map fun c => JValue.str (String.singleton c)).all strB = true := by
      rw [List.all_eq_true]
      intro x hx
      simp only [List.mem_map] at hx
      obtain ⟨c, _, rfl⟩ := hx
      rfl
    obtain ⟨ps, hps⟩ := pyJoinParts_all_str _ hall
    exact ⟨String.intercalate sep ps,
      by simp [pyJoin, pyIter, hps, bind, Except.bind, pure, Except.pure]⟩
  | obj fs =>
    have hall : (fs.map fun p => JValue.str p.1).all strB = true := by
      rw [List.all_eq_true]
      intro x hx
      simp only [List.mem_map] at hx
      obtain ⟨p, _, rfl⟩ := hx
      rfl
    obtain ⟨ps, hps⟩ := pyJoinParts_all_str _ hall
    exact ⟨String.intercalate sep ps,
      by simp [pyJoin, pyIter, hps, bind, Except.bind, pure, Except.pure]⟩
  | arr xs =>
    obtain ⟨ps, hps⟩ := pyJoinParts_all_str xs (by simpa [joinableB] using h)
    exact ⟨String.intercalate sep ps,
      by simp [pyJoin, pyIter, hps, bind, Except.bind, pure, Except.pure]⟩
  | null => simp [joinableB] at h
  | bool b => simp [joinableB] at h
  | num q => simp [joinableB] at h

/-- The answer template formatting succeeds whenever the tables_used
field (default empty list) is joinable. -/
theorem answerBody_isOk (fs : List (String × JValue)) (h : answerFieldsOK fs = true) :
    (answerBody (.obj fs)).isOk = true := by
  unfold answerFieldsOK at h
  unfold answerBody
  rcases htr : pyTruthy ((jlookup "tables_used" fs).getD (.arr [])) with _ | _
  · simp [pyGet, bind, Except.bind, pure, Except.pure, htr, Except.isOk, Except.toBool]
  · obtain ⟨s, hs⟩ := pyJoin_ok ", " _ h
    simp [pyGet, bind, Except.bind, pure, Except.pure, htr, hs, Except.isOk, Except.toBool]

/-- The metadata-answer formatting succeeds on every object payload. -/
theorem metadataAnswerBody_isOk (fs : List (String × JValue)) :
    (metadataAnswerBody (.obj fs)).isOk = true := by
  simp [metadataAnswerBody, pyGet, bind, Except.bind, pure, Except.pure, Except.isOk,
    Except.toBool]

/-- The enumerate loop succeeds on any list of well-typed entry
objects. -/
theorem similarityItems_isOk (items : List JValue) :
    ∀ i, items.all searchItemOKV = true → ∃ ls, similarityItems i items = .ok ls := by
  induction items with
  | nil => exact fun i _ => ⟨[], rfl⟩
  | cons x rest ih =>
    intro i h
    simp only [List.all_cons, Bool.and_eq_true] at h
    obtain ⟨h1, h2⟩ := h
    obtain ⟨ls, hls⟩ := ih (i + 1) h2
    cases x with
    | obj fs =>
      rw [show searchItemOKV (.obj fs) = searchItemOK fs from rfl] at h1
      refine ⟨(toString i ++ ". Table: " ++ specItemName fs ++ "\n   Score: " ++
        fmt4f (specItemScore fs) ++ "\n   Description: " ++ specItemDesc fs) :: ls, ?_⟩
      unfold similarityItems
      rw [similarityItem_spec i fs h1, hls]
      simp [bind, Except.bind, pure, Except.pure]
    | null => simp [searchItemOKV] at h1
    | bool b => simp [searchItemOKV] at h1
    | num q => simp [searchItemOKV] at h1
    | str s2 => simp [searchItemOKV] at h1
    | arr xs2 => simp [searchItemOKV] at h1

/-- The db_schema_json loop succeeds on well-typed entry objects and
produces a list of string values. -/
theorem metadataScan_ok (entries : List JValue) (h : entries.all metaEntryOKV = true) :
    ∃ c names, metadataScan entries = .ok (c, names) ∧ names.all strB = true := by
  induction entries with
  | nil => exact ⟨0, [], rfl, rfl⟩
  | cons x rest ih =>
    simp only [List.all_cons, Bool.and_eq_true] at h
    obtain ⟨h1, h2⟩ := h
    obtain ⟨c, names, hscan, hstr⟩ := ih h2
    cases x with
    | obj fs =>
      rw [show metaEntryOKV (.obj fs) = metaEntryOK fs from rfl] at h1
      unfold metaEntryOK at h1
      simp only [Bool.and_eq_true] at h1
      obtain ⟨hname, htab⟩ := h1
      refine ⟨c + optArrLen (jlookup "databaseTables" fs),
        JValue.str (optStrD (jlookup "databaseName" fs) "Unknown") :: names, ?_, ?_⟩
      · unfold metadataScan
        rw [hscan]
        simp [pyGet, bind, Except.bind, pure, Except.pure, optStrOK_getD _ _ hname,
          optArrOK_len _ htab]
      · simp [List.all_cons, hstr, strB]
    | null => simp [metaEntryOKV] at h1
    | bool b => simp [metaEntryOKV] at h1
    | num q => simp [metaEntryOKV] at h1
    | str s2 => simp [metaEntryOKV] at h1
    | arr xs2 => simp [metaEntryOKV] at h1

/-- The similarity success formatting succeeds on every well-typed
payload object. -/
theorem similarityBody_isOk (fs : List (String × JValue)) (h : similarityFieldsOK fs = true) :
    (similarityBody (.obj fs)).isOk = true := by
  unfold similarityFieldsOK at h
  rcases hR : jlookup "results" fs with _ | rv
  · simp [similarityBody, pyContains, hR, Except.isOk, Except.toBool, bind, Except.bind, pure,
      Except.pure]
  · rw [hR] at h
    cases rv with
    | arr items =>
      obtain ⟨ls, hls⟩ := similarityItems_isOk items 1 h
      simp [similarityBody, pyContains, hR, pySubscript, pyIter, hls, bind, Except.bind, pure,
        Except.pure, Except.isOk, Except.toBool]
    | null => simp at h
    | bool b => simp at h
    | num q => simp at h
    | str s2 => simp at h
    | obj fs2 => simp at h

/-- The get_metadata success formatting succeeds on every well-typed
payload object. -/
theorem getMetadataBody_isOk (dbn : String) (fs : List (String × JValue))
    (h : metadataFieldsOK fs = true) :
    (getMetadataBody dbn (.obj fs)).isOk = true := by
  unfold metadataFieldsOK at h
  rcases hS : jlookup "db_schema_json" fs with _ | sv
  · simp [getMetadataBody, pyContains, hS, bind, Except.bind, pure, Except.pure, Except.isOk,
      Except.toBool]
  · rw [hS] at h
    cases sv with
    | arr entries =>
      obtain ⟨c, names, hscan, hstr⟩ := metadataScan_ok entries h
      rcases he : names.isEmpty with _ | _
      · obtain ⟨ps, hps⟩ := pyJoinParts_all_str names hstr
        simp [getMetadataBody, pyContains, hS, pySubscript, pyIter, hscan, he, hps, bind,
          Except.bind, pure, Except.pure, Except.isOk, Except.toBool]
      · simp [getMetadataBody, pyContains, hS, pySubscript, pyIter, hscan, he, bind,
          Except.bind, pure, Except.pure, Except.isOk, Except.toBool]
    | null => simp at h
    | bool b => simp at h
    | num q => simp at h
    | str s2 => simp at h
    | obj fs2 => simp at h

/-- The shared normalizer shape returns a string (raises nothing) on
every payloadOK outcome, given that the success body does so on
well-typed field lists. -/
theorem renderWith_isOk (failMsg : String) (body : JValue → Except PyExc String)
    (fOK : List (String × JValue) → Bool)
    (hbody : ∀ fs, fOK fs = true → (body (.obj fs)).isOk = true)
    (result : Option JValue) (h : payloadOK fOK result = true) :
    (renderWith failMsg body result).isOk = true := by
  match result with
  | none => rfl
  | some v =>
    have h2 : (!pyTruthy v || payloadObjOK fOK v) = true := h
    rcases ht : pyTruthy v with _ | _
    · simp [renderWith, ht, Except.isOk, Except.toBool]
    · rw [ht] at h2
      simp only [Bool.not_true, Bool.false_or] at h2
      cases v with
      | obj fs =>
        rw [show payloadObjOK fOK (.obj fs) = ((jlookup "error" fs).isSome || fOK fs)
          from rfl] at h2
        rcases he : (jlookup "error" fs).isSome with _ | _
        · rw [he, Bool.false_or] at h2
          have hb := hbody fs h2
          simp [renderWith, ht, pyContains, he, bind, Except.bind, pure, Except.pure, hb]
        · simp [renderWith, ht, pyContains, he, pyGet, bind, Except.bind, pure, Except.pure,
            Except.isOk, Except.toBool]
      | null => simp [payloadObjOK] at h2
      | bool b => simp [payloadObjOK] at h2
      | num q => simp [payloadObjOK] at h2
      | str s2 => simp [payloadObjOK] at h2
      | arr xs2 => simp [payloadObjOK] at h2

/-- Claim C4, counterexample: a JSON-number payload makes the membership
test "error" in result raise TypeError inside answer_question, and a
result entry whose score is a string makes the fixed-point format raise
ValueError inside similarity_search; both faults escape the operation,
so the operations do not always return a string. -/
theorem c4_counterexample_faults_escape :
    answer_question_render (some (.num 5)) = .error .typeError ∧
      similarity_search_render (some (.obj [("results",
        .arr [.obj [("score", .str "high")]])])) = .error .valueError :=
  ⟨rfl, rfl⟩

/-- Claim C4, amended: each of the five operations returns a string on
every outcome that is empty, falsy, an error-reporting object, or an
object whose operation-specific fields are well typed; payloads of
other JSON shapes (for example a bare number, or a string-valued
score) can raise an unhandled fault. -/
theorem c4_well_typed_payload_total (result : Option JValue) :
    (payloadOK answerFieldsOK result = true → (answer_question_render result).isOk = true) ∧
    (payloadOK answerFieldsOK result = true →
      (answer_data_question_render result).isOk = true) ∧
    (payloadOK (fun _ => true) result = true →
      (answer_metadata_question_render result).isOk = true) ∧
    (payloadOK similarityFieldsOK result = true →
      (similarity_search_render result).isOk = true) ∧
    (∀ dbn, payloadOK metadataFieldsOK result = true →
      (get_metadata_render dbn result).isOk = true) :=
  ⟨renderWith_isOk _ _ _ answerBody_isOk result,
   renderWith_isOk _ _ _ answerBody_isOk result,
   renderWith_isOk _ _ _ (fun fs _ => metadataAnswerBody_isOk fs) result,
   renderWith_isOk _ _ _ similarityBody_isOk result,
   fun dbn => renderWith_isOk _ _ _ (getMetadataBody_isOk dbn) result⟩

/-- Claim C4, witness: the amended theorem applied to a concrete
success payload and to the empty outcome. -/
theorem c4_well_typed_witness :
    (answer_question_render (some (.obj [("answer", .str "42")]))).isOk = true ∧
      (similarity_search_render none).isOk = true :=
  ⟨(c4_well_typed_payload_total (some (.obj [("answer", .str "42")]))).1 (by decide),
   (c4_well_typed_payload_total none).2.2.2.1 (by decide)⟩

/-- A present list-of-strings-or-absent field read with the empty-list
default yields a list value all of whose elements are strings. -/
theorem optStrListOK_getD (o : Option JValue) (h : optStrListOK o = true) :
    o.getD (.arr []) = .arr (optArrD o) ∧ (optArrD o).all strB = true := by
  rcases o with _ | v
  · exact ⟨rfl, rfl⟩
  · cases v <;> simp_all [optStrListOK, optArrD]

/-- Joining a list of string values yields exactly those strings. -/
theorem pyJoinParts_strsOf (xs : List JValue) (h : xs.all strB = true) :
    pyJoinParts xs = .ok (strsOf xs) := by
  induction xs with
  | nil => rfl
  | cons x rest ih =>
    simp only [List.all_cons, Bool.and_eq_true] at h
    obtain ⟨h1, h2⟩ := h
    cases x <;> simp_all [strB, strsOf, pyJoinParts, bind, Except.bind]

/-- On a well-typed payload object, the shared answer formatting renders
exactly the spec-side three-line template with its defaults. -/
theorem answerBody_spec (fs : List (String × JValue))
    (ha : optStrOK (jlookup "answer" fs) = true)
    (hs : optStrOK (jlookup "sql_query" fs) = true)
    (ht : optStrListOK (jlookup "tables_used" fs) = true) :
    answerBody (.obj fs) = .ok (answerTemplate fs) := by
  obtain ⟨hgd, hall⟩ := optStrListOK_getD _ ht
  by_cases hsq : optStrD (jlookup "sql_query" fs) "" = "" <;>
    rcases htb : (optArrD (jlookup "tables_used" fs)).isEmpty with _ | _ <;>
      simp [answerBody, answerTemplate, pyGet, bind, Except.bind, pure, Except.pure,
        optStrOK_getD _ _ ha, optStrOK_getD _ _ hs, hgd, pyTruthy, pyStr, pyJoin, pyIter,
        pyJoinParts_strsOf _ hall, hsq, htb]

/-- Claim C2, amended: for every non-empty JSON-object success payload
with no top-level error field and documented field types, each
normalizer renders its success template, substituting the documented
default for every missing optional field (answer, sql_query and
tables_used for the answer operations; table_name, score and
description per results entry; databaseName and databaseTables per
schema entry); the empty object is falsy and renders as
"Failed to get a response" instead of the template. -/
theorem c2_missing_fields_render_defaults (fs : List (String × JValue))
    (hne : fs.isEmpty = false) (herr : jlookup "error" fs = none) :
    (optStrOK (jlookup "answer" fs) = true →
      optStrOK (jlookup "sql_query" fs) = true →
      optStrListOK (jlookup "tables_used" fs) = true →
      answer_question_render (some (.obj fs)) = .ok (answerTemplate fs) ∧
        answer_data_question_render (some (.obj fs)) = .ok (answerTemplate fs)) ∧
    (optStrOK (jlookup "answer" fs) = true →
      answer_metadata_question_render (some (.obj fs)) =
        .ok ("Answer: " ++ optStrD (jlookup "answer" fs) "No answer provided")) ∧
    (∀ items : List (List (String × JValue)),
      jlookup "results" fs = some (.arr (items.map JValue.obj)) →
      items.all searchItemOK = true →
      similarity_search_render (some (.obj fs)) =
        .ok ("Search Results:\n\n" ++ String.intercalate "\n\n" (specSearchLines 1 items))) ∧
    (∀ (dbn : String) (entries : List (List (String × JValue))),
      jlookup "db_schema_json" fs = some (.arr (entries.map JValue.obj)) →
      entries.all metaEntryOK = true → entries.isEmpty = false →
      get_metadata_render dbn (some (.obj fs)) =
        .ok ("Successfully retrieved metadata for " ++ toString (specTableCount entries) ++
          " tables from database(s): " ++ String.intercalate ", " (specDbNames entries) ++ ".")) ∧
    answer_question_render (some (.obj [])) = .ok "Failed to get a response" := by
  refine ⟨fun ha hs ht => ?_, fun ha => ?_, fun items hres hok => ?_,
    fun dbn entries hres hok hne2 => ?_, rfl⟩
  · have hb := answerBody_spec fs ha hs ht
    constructor <;>
      simp [answer_question_render, answer_data_question_render, renderWith, pyTruthy, hne,
        pyContains, herr, bind, Except.bind, pure, Except.pure, hb]
  · simp [answer_metadata_question_render, renderWith, pyTruthy, hne, pyContains, herr,
      metadataAnswerBody, pyGet, bind, Except.bind, pure, Except.pure,
      optStrOK_getD _ _ ha, pyStr]
  · simp [similarity_search_render, renderWith, pyTruthy, hne, pyContains, herr, similarityBody,
      hres, pySubscript, pyIter, similarityItems_spec items 1 hok, bind, Except.bind, pure,
      Except.pure]
  · have hmap : ((specDbNames entries).map JValue.str).isEmpty = entries.isEmpty := by
      cases entries <;> rfl
    simp [get_metadata_render, renderWith, pyTruthy, hne, pyContains, herr, getMetadataBody,
      hres, pySubscript, pyIter, metadataScan_spec entries hok, hmap, hne2,
      pyJoinParts_map_str, bind, Except.bind, pure, Except.pure]

/-- Claim C2, witness: the amended theorem applied to Scenario 2's
payload (answer present, no sql_query, no tables_used) and to a
payload with the answer field missing. -/
theorem c2_missing_fields_witness :
    answer_question_render (some (.obj [("answer", .str "42")])) =
      .ok "\nAnswer: 42\n\nSQL Query: No SQL query generated\n\nTables Used: None\n" ∧
    answer_metadata_question_render (some (.obj [("question_id", .null)])) =
      .ok "Answer: No answer provided" := by
  constructor
  · exact ((c2_missing_fields_render_defaults [("answer", .str "42")] rfl rfl).1
      (by decide) (by decide) (by decide)).1
  · exact (c2_missing_fields_render_defaults [("question_id", .null)] rfl rfl).2.1 (by decide)
